import Mathlib

/-!
Verification of the KeyCRM–Checkbox bridge service.

This file gives a shallow embedding of the service's core logic:

* `src/utils/mapper.js` — `deriveCode`, `slugify`, `toCheckboxGood`,
  `needsUpdate`, `toKeycrmProduct`;
* the webhook route (sale-event filter, `verifySignature`,
  `processReceipt`);
* the product-sync route (the revision of `routes/sync.js` with
  `buildGroupMap`/`resolveGroupId` and 422-conflict handling on create);
* `getOrCreateGroup` from the Checkbox service module.

JavaScript numbers are modelled by `ℚ`, JavaScript strings by `String`,
nullable fields by `Option`, and JS truthiness by explicit helper
functions.  External HTTP capabilities (the CRM and POS APIs) are
modelled as explicit state transformers or oracle functions; the remote
catalog/CRM state is threaded explicitly so that two successive runs can
be composed.
-/

namespace Bridge

/- Rational arithmetic must evaluate inside `decide` proofs, so the
library's irreducibility markers on the `Rat` operations are lifted for
this file. -/
attribute [local semireducible] Rat.mul Rat.inv Rat.add Rat.sub Rat.ofScientific

/-! ## JavaScript-semantics helpers -/

/-- Truthiness of a nullable JS string: `null`/`undefined` and `""` are falsy. -/
def jsTruthyS (o : Option String) : Bool :=
  match o with
  | some s => s != ""
  | none => false

/-- JS `a || d` for a nullable string `a` with string default `d`. -/
def jsOrS (o : Option String) (d : String) : String :=
  match o with
  | some s => if s = "" then d else s
  | none => d

/-- JS `a || b` where both sides are nullable strings (`a ? a : b` on truthiness). -/
def jsOrOS (a b : Option String) : Option String :=
  if jsTruthyS a then a else b

/-- JS `a || d` for a nullable number `a` (0 is falsy) with default `d`. -/
def jsOrQ (o : Option ℚ) (d : ℚ) : ℚ :=
  match o with
  | some v => if v = 0 then d else v
  | none => d

/-- Truthiness of a nullable JS number: `null`/`undefined` and `0` are falsy. -/
def jsTruthyN (o : Option Nat) : Bool :=
  match o with
  | some n => n != 0
  | none => false

/-- JS `Math.round` (round half toward `+∞`). -/
def jsRound (q : ℚ) : ℤ := ⌊q + 1/2⌋

/-- ASCII uppercase letter test, at the code-point level. -/
def isUpperA (c : Char) : Bool := 65 ≤ c.toNat && c.toNat ≤ 90

/-- ASCII lowercase letter test, at the code-point level. -/
def isLowerA (c : Char) : Bool := 97 ≤ c.toNat && c.toNat ≤ 122

/-- ASCII digit test, at the code-point level. -/
def isDigitA (c : Char) : Bool := 48 ≤ c.toNat && c.toNat ≤ 57

/-- JS `toLowerCase` on a character (ASCII range; other characters unchanged). -/
def toLowerJS (c : Char) : Char :=
  if 65 ≤ c.toNat && c.toNat ≤ 90 then Char.ofNat (c.toNat + 32) else c

/-- JS `toUpperCase` on a character (ASCII range; other characters unchanged). -/
def toUpperJS (c : Char) : Char :=
  if 97 ≤ c.toNat && c.toNat ≤ 122 then Char.ofNat (c.toNat - 32) else c

/-- JS `String.prototype.toLowerCase`. -/
def strToLowerJS (s : String) : String := String.mk (s.toList.map toLowerJS)

/-- JS `String.prototype.toUpperCase`. -/
def strToUpperJS (s : String) : String := String.mk (s.toList.map toUpperJS)

/-- Whether `sub` occurs at the start of `l`. -/
def leadsList : List Char → List Char → Bool
  | [], _ => true
  | _ :: _, [] => false
  | a :: as, b :: bs => a == b && leadsList as bs

/-- Whether `sub` occurs anywhere in `l`. -/
def hasSubList (sub : List Char) : List Char → Bool
  | [] => leadsList sub []
  | c :: cs => leadsList sub (c :: cs) || hasSubList sub cs

/-- JS `s.includes(sub)`. -/
def jsIncludes (s sub : String) : Bool := hasSubList sub.toList s.toList

/-- JS `\s` character class (ASCII whitespace subset). -/
def isSpaceJS (c : Char) : Bool :=
  c == ' ' || c == '\t' || c == '\n' || c == '\r' || c.toNat == 11 || c.toNat == 12

/-- JS `String.prototype.trim`: strip whitespace from both ends. -/
def jsTrim (s : String) : String :=
  String.mk (((s.toList.dropWhile isSpaceJS).reverse.dropWhile isSpaceJS).reverse)

/-- JS `s.split(',')`. -/
def splitCommaAux (cur : List Char) : List Char → List String
  | [] => [String.mk cur.reverse]
  | c :: cs =>
    if c == ',' then String.mk cur.reverse :: splitCommaAux [] cs
    else splitCommaAux (c :: cur) cs

/-- JS `s.split(',')` on a string. -/
def splitComma (s : String) : List String := splitCommaAux [] s.toList

/-- JS `unit.x && unit.x.trim()` truthiness for a nullable string field. -/
def jsTruthyTrim (o : Option String) : Bool :=
  match o with
  | some s => s != "" && jsTrim s != ""
  | none => false

/-! ## mapper.js — data model and pure mapping functions -/

/-- A KeyCRM product or offer unit as consumed by `mapper.js`. -/
structure KUnit where
  id : Nat
  name : Option String
  sku : Option String
  barcode : Option String
  price : Option ℚ
deriving DecidableEq

/-- JS `\w` character class `[A-Za-z0-9_]`. -/
def isWordCharJS (c : Char) : Bool :=
  isUpperA c || isLowerA c || isDigitA c || c == '_'

/-- Characters kept by slugify's first replace, `[^\w\s-]` removal. -/
def keepChar (c : Char) : Bool := isWordCharJS c || isSpaceJS c || c == '-'

/-- Characters collapsed by slugify's second replace, `[\s_]+` → `-`. -/
def isSep (c : Char) : Bool := isSpaceJS c || c == '_'

/-- Replace each maximal run of separator characters with a single hyphen
(the flag records whether the previous character was part of such a run). -/
def collapseAux : Bool → List Char → List Char
  | _, [] => []
  | inSep, c :: cs =>
    if isSep c then
      if inSep then collapseAux true cs else '-' :: collapseAux true cs
    else c :: collapseAux false cs

/-- Drop leading hyphens (the `^-+` part of slugify's final replace). -/
def dropLeadHyphens (l : List Char) : List Char := l.dropWhile (fun c => c == '-')

/-- Drop trailing hyphens (the `-+$` part of slugify's final replace). -/
def dropTrailHyphens (l : List Char) : List Char :=
  (l.reverse.dropWhile (fun c => c == '-')).reverse

/-- `slugify` from `mapper.js`: lowercase, strip `[^\w\s-]`, collapse
`[\s_]+` to single hyphens, trim leading/trailing hyphens. -/
def slugify (s : String) : String :=
  String.mk (dropTrailHyphens (dropLeadHyphens
    (collapseAux false ((s.toList.map toLowerJS).filter keepChar))))

/-- The display name slugified by `deriveCode` when SKU and barcode are
unusable: `unit.name || "product-<id>"`. -/
def slugSourceName (u : KUnit) : String :=
  jsOrS u.name ("product-" ++ toString u.id)

/-- `deriveCode` from `mapper.js`: trimmed SKU, else trimmed barcode, else
the slug of the display name truncated to 150 characters. -/
def deriveCode (u : KUnit) : String :=
  if jsTruthyTrim u.sku then jsTrim (u.sku.getD "")
  else if jsTruthyTrim u.barcode then jsTrim (u.barcode.getD "")
  else String.mk ((slugify (slugSourceName u)).toList.take 150)

/-- The Checkbox `POST /goods` payload built by `toCheckboxGood` — exactly
the fields assigned in `mapper.js` (note: no group field of any kind). -/
structure CheckboxGoodPayload where
  name : String
  code : String
  price : ℤ
  type : String
  is_weight : Bool
  tax_codes : List String
  external_id : String
  barcode : Option String
deriving DecidableEq

/-- `toCheckboxGood(unit, productId, isOffer)` from `mapper.js`; `taxEnv`
models the `CHECKBOX_TAX_CODES` environment variable (`""` when unset). -/
def toCheckboxGood (taxEnv : String) (unit : KUnit) (productId : Nat)
    (isOffer : Bool) : CheckboxGoodPayload :=
  { name := jsOrS unit.name ("Product " ++ toString unit.id)
    code := deriveCode unit
    price := jsRound (jsOrQ unit.price 0 * 100)
    type := "PRODUCT"
    is_weight := false
    tax_codes :=
      if taxEnv != "" then
        ((splitComma taxEnv).map jsTrim).filter (fun t => t != "")
      else []
    external_id :=
      if isOffer then "keycrm_offer:" ++ toString unit.id
      else "keycrm_product:" ++ toString productId
    barcode :=
      if jsTruthyTrim unit.barcode then some (jsTrim (unit.barcode.getD ""))
      else none }

/-- The sync route invocation `toCheckboxGood(unit, productId, isOffer, groupId)`:
the JS function declares only three parameters, so the fourth argument
(`groupId`) passed at both call sites is dropped by JS call semantics. -/
def toCheckboxGoodCall (taxEnv : String) (unit : KUnit) (productId : Nat)
    (isOffer : Bool) (_groupId : Option String) : CheckboxGoodPayload :=
  toCheckboxGood taxEnv unit productId isOffer

/-- A good as stored in the Checkbox catalog (fields read back by the sync
route: price, name, group assignment, plus identity). -/
structure StoredGood where
  id : Nat
  code : String
  name : String
  price : ℤ
  barcode : Option String
  group_id : Option String
deriving DecidableEq

/-- `needsUpdate(checkboxGood, keycrmUnit)` from `mapper.js`. -/
def needsUpdate (checkboxGood : StoredGood) (keycrmUnit : KUnit) : Bool :=
  checkboxGood.price != jsRound (jsOrQ keycrmUnit.price 0 * 100)
    || checkboxGood.name != jsOrS keycrmUnit.name ("Product " ++ toString keycrmUnit.id)

/-! ## Webhook data model (Checkbox receipt payloads) -/

/-- The `good` object nested inside a receipt line item. -/
structure GoodRef where
  code : Option String
  barcode : Option String
  name : Option String
  price : Option ℚ
deriving DecidableEq

/-- The empty object `{}` used for `goodItem.good || {}`. -/
def emptyGoodRef : GoodRef :=
  { code := none, barcode := none, name := none, price := none }

/-- One entry of `receipt.goods`. -/
structure GoodItem where
  good : Option GoodRef
  good_id : Option Nat
  quantity : Option ℚ
  total_sum : Option ℚ
deriving DecidableEq

/-- A Checkbox receipt as read by the webhook route; `shiftCashier` models
`receipt.shift?.cashier?.id`. -/
structure Receipt where
  id : String
  type : Option String
  order_id : Option Nat
  goods : List GoodItem
  total_sum : Option ℚ
  created_at : Option String
  shiftCashier : Option String
deriving DecidableEq

/-- A KeyCRM product (the fields used by the webhook route). -/
structure KProd where
  name : String
  sku : Option String
deriving DecidableEq

/-- A KeyCRM offer (the fields used by the webhook route). -/
structure KOffer where
  sku : Option String
  product : Option KProd
deriving DecidableEq

/-- A KeyCRM order product line built by `toKeycrmProduct`. -/
structure KeycrmProduct where
  sku : Option String
  name : String
  price : ℚ
  quantity : ℚ
deriving DecidableEq

/-- `toKeycrmProduct(goodItem, offer)` from `mapper.js`. -/
def toKeycrmProduct (goodItem : GoodItem) (offer : Option KOffer) : KeycrmProduct :=
  let good := goodItem.good.getD emptyGoodRef
  { sku :=
      match offer with
      | some o => jsOrOS o.sku good.code
      | none => good.code
    name :=
      jsOrS good.name
        (match offer with
         | some o => match o.product with
           | some p => p.name
           | none => "Unknown"
         | none => "Unknown")
    price := jsOrQ good.price (jsOrQ goodItem.total_sum 0) / 100
    quantity := jsOrQ goodItem.quantity 1000 / 1000 }

/-! ## Sale-event filter (webhook route, guard chain) -/

/-- Outcome of the webhook guard chain over an extracted receipt object. -/
inductive FilterResult where
  | ignoredType
  | ignoredOrderId
  | ignoredNullGoods
  | ignoredCashierMismatch
  | accepted
deriving DecidableEq

/-- Whether a filter outcome is one of the "ignored" classifications. -/
def FilterResult.isIgnored : FilterResult → Bool
  | .accepted => false
  | _ => true

/-- The JSON response the route sends for a filter outcome:
HTTP status, the `ok` flag, and the `ignored` flag. -/
structure RouteResponse where
  status : Nat
  ok : Bool
  ignored : Bool
deriving DecidableEq

/-- Response sent for each guard outcome (every outcome, ignored or
accepted, is answered with HTTP 200 and `ok: true`). -/
def responseFor (r : FilterResult) : RouteResponse :=
  match r with
  | .accepted => { status := 200, ok := true, ignored := false }
  | _ => { status := 200, ok := true, ignored := true }

/-- `(receipt.type || '').toUpperCase()` from the webhook route. -/
def receiptTypeUpper (receipt : Receipt) : String :=
  strToUpperJS (jsOrS receipt.type "")

/-- The cashier-mismatch guard condition: our cashier id is known, the
receipt carries a cashier id, and the two differ. -/
def cashierMismatch (ourCashierId : Option String) (receipt : Receipt) : Bool :=
  jsTruthyS ourCashierId && jsTruthyS receipt.shiftCashier
    && receipt.shiftCashier != ourCashierId

/-- The all-line-items-uncatalogued guard condition: the receipt has at
least one line item and every line item's `good_id` is null. -/
def allGoodsNull (receipt : Receipt) : Bool :=
  decide (receipt.goods ≠ []) && receipt.goods.all (fun g => g.good_id.isNone)

/-- The webhook route's guard chain over an extracted receipt, given the
service's own signed-in cashier id (`checkbox.getCashierId()`). -/
def classifyReceipt (ourCashierId : Option String) (receipt : Receipt) : FilterResult :=
  if receiptTypeUpper receipt != "" && receiptTypeUpper receipt != "SELL" then .ignoredType
  else if receipt.order_id.isSome then .ignoredOrderId
  else if allGoodsNull receipt then .ignoredNullGoods
  else if cashierMismatch ourCashierId receipt then .ignoredCashierMismatch
  else .accepted

/-! ## Webhook signature gate -/

/-- `verifySignature(rawBody, signature)` from the webhook route.  The
HMAC-SHA256 computation plus hex-decoding `timingSafeEqual` comparison is
the out-of-scope crypto primitive, abstracted as the boolean `check`
taking the secret, the raw body and the signature. -/
def verifySignature (check : String → String → String → Bool)
    (secret : Option String) (rawBody signature : String) : Bool :=
  if !jsTruthyS secret then true
  else check (secret.getD "") rawBody signature

/-- The route's signature gate: it answers 400 only when the
`x-request-signature` header is present and verification fails
(`if (signature && !verifySignature(req.rawBody, signature)) return 400`). -/
def signatureRejected (check : String → String → String → Bool)
    (secret : Option String) (rawBody : String) (sigHeader : Option String) : Bool :=
  jsTruthyS sigHeader && !verifySignature check secret rawBody (sigHeader.getD "")

/-! ## processReceipt — product resolution, order construction,
duplicate-safe order creation -/

/-- The response data attached to a failed HTTP call (`err.response.data`). -/
structure RespData where
  message : Option String
  detail : Option String
deriving DecidableEq

/-- A failed HTTP call: `err.response?.status`, `err.response?.data`,
`err.message`. -/
structure HttpErr where
  status : Option Nat
  data : Option RespData
  message : String
deriving DecidableEq

/-- The KeyCRM read capability used by `processReceipt`
(`getOfferBySku`, `getOfferByBarcode`, `getProductByName`), modelled as
oracle functions. -/
structure CrmReads where
  offerBySku : String → Option KOffer
  offerByBarcode : String → Option KOffer
  productByName : String → Option KProd

/-- The SKU → barcode → name fallback chain resolving one line item's
`good` to a KeyCRM offer. -/
def lookupOffer (crm : CrmReads) (good : GoodRef) : Option KOffer :=
  let o1 := if jsTruthyS good.code then crm.offerBySku (good.code.getD "") else none
  let o2 :=
    match o1 with
    | some o => some o
    | none =>
      if jsTruthyS good.barcode then crm.offerByBarcode (good.barcode.getD "") else none
  match o2 with
  | some o => some o
  | none =>
    if jsTruthyS good.name then
      (crm.productByName (good.name.getD "")).map (fun p => { sku := p.sku, product := some p })
    else none

/-- The product-line loop of `processReceipt`: lines with no offer, no
code and no name are dropped; every other line is mapped through
`toKeycrmProduct`. -/
def buildProducts (crm : CrmReads) (goods : List GoodItem) : List KeycrmProduct :=
  goods.foldl
    (fun acc goodItem =>
      let good := goodItem.good.getD emptyGoodRef
      let offer := lookupOffer crm good
      if offer.isNone && !jsTruthyS good.code && !jsTruthyS good.name then acc
      else acc ++ [toKeycrmProduct goodItem offer])
    []

/-- Environment-derived configuration of the webhook route
(`KEYCRM_SOURCE_ID`, `KEYCRM_PAYMENT_METHOD_ID`, `KEYCRM_ORDER_STATUS_ID`,
`KEYCRM_BUYER_ID`, `KEYCRM_BUYER_EMAIL`). -/
structure Config where
  sourceId : Nat
  paymentMethodId : Nat
  statusId : Nat
  buyerId : Nat
  buyerEmail : String
deriving DecidableEq

/-- One payment line of the order payload. -/
structure Payment where
  payment_method_id : Nat
  amount : ℚ
  status : String
deriving DecidableEq

/-- Replace the first `T` with a space (JS `replace('T', ' ')` with a
string pattern replaces only the first occurrence). -/
def replaceFirstT : List Char → List Char
  | [] => []
  | c :: cs => if c == 'T' then ' ' :: cs else c :: replaceFirstT cs

/-- `created_at.replace('T',' ').split('.')[0].split('+')[0].split('Z')[0]`. -/
def formatOrderedAt (s : String) : String :=
  String.mk (((((replaceFirstT s.toList).takeWhile (fun c => c != '.')).takeWhile
    (fun c => c != '+')).takeWhile (fun c => c != 'Z')))

/-- The KeyCRM order-creation payload built by `processReceipt`
(`source_uuid` is the idempotency key). -/
structure OrderPayload where
  source_id : Nat
  source_uuid : String
  buyerEmail : String
  products : List KeycrmProduct
  payments : List Payment
  ordered_at : Option String
deriving DecidableEq

/-- The order payload for a receipt and its resolved product lines. -/
def orderPayload (cfg : Config) (receipt : Receipt) (products : List KeycrmProduct) :
    OrderPayload :=
  let totalAmount := jsOrQ receipt.total_sum 0 / 100
  { source_id := cfg.sourceId
    source_uuid := receipt.id
    buyerEmail := cfg.buyerEmail
    products := products
    payments :=
      if 0 < totalAmount then
        [{ payment_method_id := cfg.paymentMethodId, amount := totalAmount, status := "paid" }]
      else []
    ordered_at := receipt.created_at.map formatOrderedAt }

/-- An order stored in the CRM (with the deferred status/client fields the
follow-up `updateOrder` sets). -/
structure CrmOrder where
  id : Nat
  source_uuid : String
  products : List KeycrmProduct
  payments : List Payment
  status_id : Option Nat
  client_id : Option Nat
deriving DecidableEq

/-- The CRM's order store. -/
structure CrmState where
  orders : List CrmOrder
  nextId : Nat
deriving DecidableEq

/-- The CRM `createOrder` capability, per its interface contract: the CRM
enforces uniqueness of the idempotency key `source_uuid`; a duplicate is
answered with HTTP 422 and a message naming `source_uuid`. -/
def crmCreateOrder (s : CrmState) (payload : OrderPayload) :
    Except HttpErr (Nat × CrmState) :=
  if s.orders.any (fun o => o.source_uuid == payload.source_uuid) then
    Except.error
      { status := some 422
        data := some { message := some "Duplicate source_uuid", detail := none }
        message := "Request failed with status code 422" }
  else
    Except.ok (s.nextId,
      { orders := s.orders ++
          [{ id := s.nextId, source_uuid := payload.source_uuid,
             products := payload.products, payments := payload.payments,
             status_id := none, client_id := none }]
        nextId := s.nextId + 1 })

/-- The outcome of one `processReceipt` call. -/
inductive ProcResult where
  | skippedNoProducts
  | created (orderId : Nat)
  | duplicateIgnored
  | failed (e : HttpErr)
deriving DecidableEq

/-- Whether `processReceipt` completed without raising an error. -/
def ProcResult.isSuccess : ProcResult → Bool
  | .failed _ => false
  | _ => true

/-- `processReceipt(receipt)` from the webhook route: build product lines,
skip entirely when none resolve, create the order (then issue the delayed
status/client update), and treat a 422 whose message mentions
`source_uuid` as success. -/
def processReceipt (cfg : Config) (crm : CrmReads) (receipt : Receipt)
    (s : CrmState) : ProcResult × CrmState :=
  let products := buildProducts crm receipt.goods
  if products.isEmpty then (ProcResult.skippedNoProducts, s)
  else
    let payload := orderPayload cfg receipt products
    match crmCreateOrder s payload with
    | Except.ok (oid, s1) =>
      if oid != 0 then
        (ProcResult.created oid,
         { s1 with orders := s1.orders.map (fun o =>
             if o.id == oid then { o with status_id := some cfg.statusId,
                                          client_id := some cfg.buyerId }
             else o) })
      else (ProcResult.created oid, s1)
    | Except.error e =>
      let msg := jsOrS (e.data.bind (fun d => d.message)) e.message
      if e.status == some 422 && msg != "" && jsIncludes (strToLowerJS msg) "source_uuid" then
        (ProcResult.duplicateIgnored, s)
      else (ProcResult.failed e, s)

/-! ## Catalog reconciler (routes/sync.js, the revision with
`buildGroupMap`/`resolveGroupId` and 422-conflict handling on create) -/

/-- A KeyCRM category from `keycrm.getProductCategories()`. -/
structure Cat where
  id : Nat
  name : String
  parent_id : Option Nat
deriving DecidableEq

/-- A Checkbox goods group. -/
structure PosGroup where
  id : String
  name : String
  parent_id : Option String
deriving DecidableEq

/-- A JS `Map` keyed by strings, with `set` overwriting an existing key. -/
def mapSet {α : Type} (m : List (String × α)) (k : String) (v : α) :
    List (String × α) :=
  match m with
  | [] => [(k, v)]
  | (k0, v0) :: rest => if k0 == k then (k, v) :: rest else (k0, v0) :: mapSet rest k v

/-- The group lookup map of the sync route. -/
def GroupMap := List (String × PosGroup)

/-- `buildGroupMap(groups)`: key is
`name.toLowerCase().trim() + "::" + (parent_id || '')`. -/
def buildGroupMap (groups : List PosGroup) : GroupMap :=
  groups.foldl
    (fun m g =>
      mapSet m (jsTrim (strToLowerJS g.name) ++ "::" ++ g.parent_id.getD "") g)
    []

/-- The Checkbox-side state threaded through a reconciliation run: the
goods catalog, the goods groups, and fresh-id counters.  This is the
reliable instantiation of the POS capability: `getGoodByCode` reads the
catalog, `createGood`/`createGroup` append to it and always succeed. -/
structure PosState where
  goods : List StoredGood
  groups : List PosGroup
  nextGoodId : Nat
  nextGroupId : Nat
deriving DecidableEq

/-- `checkbox.createGroup(name, parentId)`: the created group is persisted
in the Checkbox catalog and carries a fresh non-empty id. -/
def createGroupOp (s : PosState) (name : String) (parentId : Option String) :
    PosGroup × PosState :=
  let g : PosGroup := { id := "g" ++ toString s.nextGroupId, name := name, parent_id := parentId }
  (g, { s with groups := s.groups ++ [g], nextGroupId := s.nextGroupId + 1 })

/-- `resolveGroupId(categoryId, keycrmCats, groupMap)` from the sync
route: resolve (creating on miss) the parent category's top-level group,
then the category's own group/subgroup, updating the map before
returning. -/
def resolveGroupId (keycrmCats : List (Nat × Cat)) (categoryId : Option Nat)
    (gm : GroupMap) (s : PosState) : Option String × GroupMap × PosState :=
  match categoryId with
  | none => (none, gm, s)
  | some cid =>
    match keycrmCats.lookup cid with
    | none => (none, gm, s)
    | some cat =>
      let step1 : String × GroupMap × PosState :=
        if jsTruthyN cat.parent_id then
          match keycrmCats.lookup (cat.parent_id.getD 0) with
          | none => ("", gm, s)
          | some parentCat =>
            let parentKey := jsTrim (strToLowerJS parentCat.name) ++ "::"
            match List.lookup parentKey gm with
            | some pg => (pg.id, gm, s)
            | none =>
              let p := createGroupOp s parentCat.name none
              (p.1.id, mapSet gm parentKey p.1, p.2)
        else ("", gm, s)
      let parentGroupId := step1.1
      let gm1 := step1.2.1
      let s1 := step1.2.2
      let key := jsTrim (strToLowerJS cat.name) ++ "::" ++ parentGroupId
      match List.lookup key gm1 with
      | some g => (some g.id, gm1, s1)
      | none =>
        let p := createGroupOp s1 cat.name (if parentGroupId = "" then none else some parentGroupId)
        (some p.1.id, mapSet gm1 key p.1, p.2)

/-- One per-unit error descriptor pushed into `summary.errors` (entries
carry either the unit id or the derived code, a reason, and the failing
response data when available). -/
structure ErrEntry where
  id : Option Nat
  code : Option String
  reason : String
  detail : Option RespData
deriving DecidableEq

/-- The run summary of the sync route. -/
structure RunSummary where
  created : Nat
  updated : Nat
  skipped : Nat
  errors : List ErrEntry
  created_names : List String
deriving DecidableEq

/-- The all-zero summary the run starts from. -/
def emptySummary : RunSummary :=
  { created := 0, updated := 0, skipped := 0, errors := [], created_names := [] }

/-- The message built for a creation failure:
`detail?.message || detail?.detail || err.message || ''`. -/
def createFailMsg (code : String) (e : HttpErr) : String :=
  "Failed to create \"" ++ code ++ "\": " ++
    jsOrS (e.data.bind (fun d => d.message))
      (jsOrS (e.data.bind (fun d => d.detail)) (jsOrS (some e.message) ""))

/-- How the sync route's create branch folds a `createGood` outcome into
the summary: success counts as created (and records the name); a 422
failure is treated as "already exists" and counts as skipped; any other
failure is recorded as an error with the code and the response data. -/
def applyCreateOutcome (summary : RunSummary) (code : String) (unitName : String)
    (outcome : Except HttpErr Unit) : RunSummary :=
  match outcome with
  | Except.ok _ =>
    { summary with created := summary.created + 1
                   created_names := summary.created_names ++ [unitName] }
  | Except.error e =>
    if e.status == some 422 then
      { summary with skipped := summary.skipped + 1 }
    else
      { summary with errors := summary.errors ++
          [{ id := none, code := some code, reason := createFailMsg code e,
             detail := e.data }] }

/-- One syncable unit of the reconciler's flat unit list. -/
structure SyncUnit where
  unit : KUnit
  productId : Nat
  isOffer : Bool
  categoryId : Option Nat
deriving DecidableEq

/-- The state carried across the reconciler's per-unit loop. -/
structure LoopState where
  summary : RunSummary
  gm : GroupMap
  pos : PosState

/-- One iteration of the reconciler's per-unit loop (the reliable
instantiation: lookup never throws, create and update always succeed). -/
def syncStep (taxEnv : String) (keycrmCats : List (Nat × Cat))
    (st : LoopState) (su : SyncUnit) : LoopState :=
  if !jsTruthyS su.unit.name then
    { st with summary := { st.summary with errors := st.summary.errors ++
        [{ id := some su.unit.id, code := none, reason := "Missing name, skipped",
           detail := none }] } }
  else
    let code := deriveCode su.unit
    if jsTrim code == "" then
      { st with summary :=
          { st.summary with
              errors := st.summary.errors ++
                [{ id := some su.unit.id, code := none,
                   reason := "Empty code (no SKU/barcode/name), skipped", detail := none }]
              skipped := st.summary.skipped + 1 } }
    else
      let existing := st.pos.goods.find? (fun g => g.code == code)
      let r := resolveGroupId keycrmCats su.categoryId st.gm st.pos
      let groupId := r.1
      let gm2 := r.2.1
      let pos2 := r.2.2
      match existing with
      | none =>
        let payload := toCheckboxGoodCall taxEnv su.unit su.productId su.isOffer groupId
        let stored : StoredGood :=
          { id := pos2.nextGoodId, code := payload.code, name := payload.name,
            price := payload.price, barcode := payload.barcode, group_id := none }
        { summary := applyCreateOutcome st.summary code (jsOrS su.unit.name "") (Except.ok ())
          gm := gm2
          pos := { pos2 with goods := pos2.goods ++ [stored],
                             nextGoodId := pos2.nextGoodId + 1 } }
      | some g =>
        if needsUpdate g su.unit || (jsTruthyS groupId && g.group_id != groupId) then
          let payload := toCheckboxGoodCall taxEnv su.unit su.productId su.isOffer groupId
          { summary := { st.summary with updated := st.summary.updated + 1 }
            gm := gm2
            pos := { pos2 with goods := pos2.goods.map (fun x =>
                if x.id == g.id then
                  { x with name := payload.name, price := payload.price,
                           barcode := payload.barcode }
                else x) } }
        else
          { summary := { st.summary with skipped := st.summary.skipped + 1 }
            gm := gm2
            pos := pos2 }

/-- One reconciliation run over a flat unit list: build the group map from
the current Checkbox groups, then upsert each unit sequentially. -/
def syncRun (taxEnv : String) (keycrmCats : List (Nat × Cat))
    (units : List SyncUnit) (s0 : PosState) : RunSummary × PosState :=
  let fin := units.foldl (syncStep taxEnv keycrmCats)
    { summary := emptySummary, gm := buildGroupMap s0.groups, pos := s0 }
  (fin.summary, fin.pos)

/-! ## getOrCreateGroup (Checkbox service module with the run-scoped
group cache) -/

/-- The Checkbox service module's group state: the remote groups listing,
the nullable in-memory cache object, and fresh-id/create counters. -/
structure CbGroupsState where
  posGroups : List PosGroup
  cache : Option (List (String × String))
  nextId : Nat
  createCount : Nat
deriving DecidableEq

/-- `createGroup(name, parentId)` for the service module: returns the new
group (fresh non-empty id) and counts the create call. -/
def cbCreateGroup (name : String) (parentId : Option String) (s : CbGroupsState) :
    PosGroup × CbGroupsState :=
  let g : PosGroup := { id := "g" ++ toString s.nextId, name := name, parent_id := parentId }
  (g, { s with posGroups := s.posGroups ++ [g], nextId := s.nextId + 1,
               createCount := s.createCount + 1 })

/-- The lazy cache population at the top of `getOrCreateGroup`: on first
use, list all groups and index them by `name + "::" + (parent_id || '')`. -/
def cachePopulated (s : CbGroupsState) : CbGroupsState :=
  match s.cache with
  | some _ => s
  | none =>
    { s with cache := some (s.posGroups.foldl
        (fun m g => mapSet m (g.name ++ "::" ++ g.parent_id.getD "") g.id) []) }

/-- `getOrCreateGroup(name, parentId)` from the Checkbox service module:
cache-first lookup of `name + "::" + (parentId || '')`; on miss (or on a
falsy cached id) create the group and insert it into the cache before
returning. -/
def getOrCreateGroup (name : String) (parentId : Option String)
    (s : CbGroupsState) : String × CbGroupsState :=
  let s1 := cachePopulated s
  let c := s1.cache.getD []
  let key := name ++ "::" ++ parentId.getD ""
  match List.lookup key c with
  | some v =>
    if v != "" then (v, s1)
    else
      let p := cbCreateGroup name parentId s1
      (p.1.id, { p.2 with cache := some (mapSet c key p.1.id) })
  | none =>
    let p := cbCreateGroup name parentId s1
    (p.1.id, { p.2 with cache := some (mapSet c key p.1.id) })

/-! ## Concrete inputs for witnesses and counterexamples -/

/-- A character allowed in a slug per the spec: lowercase ASCII letter,
digit, or hyphen. -/
def isSlugChar (c : Char) : Bool := isLowerA c || isDigitA c || c == '-'

/-- A unit with a usable SKU (first precedence branch). -/
def unitSku : KUnit :=
  { id := 7, name := some "Widget", sku := some " A1 ", barcode := some "BC", price := none }

/-- A unit with whitespace-only SKU and usable barcode (second branch). -/
def unitBarcode : KUnit :=
  { id := 7, name := some "Widget", sku := some "  ", barcode := some " BC ", price := none }

/-- A unit with no SKU and empty barcode (slug branch). -/
def unitSlug : KUnit :=
  { id := 7, name := some "Blue Mug #2!", sku := none, barcode := some "", price := none }

/-- The property claimed of the derived code when SKU and barcode are
empty: only lowercase letters/digits/hyphens, length at most 150, and no
leading or trailing hyphen. -/
def slugClaim (s : String) : Prop :=
  (∀ c ∈ s.toList, isSlugChar c = true) ∧
  s.toList.length ≤ 150 ∧
  (∀ c, s.toList.head? = some c → c ≠ '-') ∧
  (∀ c, s.toList.getLast? = some c → c ≠ '-')

/-- A unit with no SKU/barcode whose name slugifies to 151 characters with
a hyphen in position 150, so the 150-character truncation ends in a hyphen. -/
def unitLong : KUnit :=
  { id := 9, name := some (String.mk (List.replicate 149 'a' ++ [' ', 'b'])),
    sku := none, barcode := none, price := none }

/-- A receipt carrying an originating order reference. -/
def rOrder : Receipt :=
  { id := "r1", type := some "SELL", order_id := some 42, goods := [],
    total_sum := none, created_at := none, shiftCashier := none }

/-- A line item with no catalog good reference. -/
def gNull : GoodItem :=
  { good := none, good_id := none, quantity := none, total_sum := none }

/-- A line item referencing a catalog good. -/
def gLinked : GoodItem :=
  { good := none, good_id := some 3, quantity := none, total_sum := none }

/-- A receipt whose every line item lacks a catalog good reference. -/
def rNullGoods : Receipt :=
  { id := "r2", type := some "SELL", order_id := none, goods := [gNull, gNull],
    total_sum := none, created_at := none, shiftCashier := none }

/-- A receipt whose cashier differs from the signed-in cashier. -/
def rMismatch : Receipt :=
  { id := "r3", type := some "SELL", order_id := none, goods := [gLinked],
    total_sum := none, created_at := none, shiftCashier := some "other" }

/-- A RETURN receipt. -/
def rReturn : Receipt :=
  { id := "r4", type := some "RETURN", order_id := none, goods := [gLinked],
    total_sum := none, created_at := none, shiftCashier := some "me" }

/-- A genuine SELL receipt with a catalog-linked line item and a matching
cashier. -/
def rAccepted : Receipt :=
  { id := "r5", type := some "SELL", order_id := none, goods := [gNull, gLinked],
    total_sum := none, created_at := none, shiftCashier := some "me" }

/-- A 422 conflict response from `createGood`. -/
def err422 : HttpErr :=
  { status := some 422, data := none, message := "Request failed with status code 422" }

/-- A 500 failure response from `createGood`. -/
def err500 : HttpErr :=
  { status := some 500, data := some { message := some "boom", detail := none },
    message := "Request failed with status code 500" }

/-- A concrete webhook-route configuration. -/
def cfg0 : Config :=
  { sourceId := 1, paymentMethodId := 2, statusId := 12, buyerId := 4,
    buyerEmail := "shop@example.com" }

/-- A CRM read oracle that resolves nothing (lines fall back to the
receipt's own good data). -/
def crm0 : CrmReads :=
  { offerBySku := fun _ => none, offerByBarcode := fun _ => none,
    productByName := fun _ => none }

/-- An empty CRM order store. -/
def crmEmpty : CrmState := { orders := [], nextId := 1 }

/-- The scenario line item, with the catalog good reference (`good_id`)
and the per-good price in kopecks that a real POS receipt carries. -/
def giA1 : GoodItem :=
  { good := some { code := some "A1", barcode := none, name := none, price := some 1999 },
    good_id := some 7, quantity := some 2000, total_sum := none }

/-- The scenario receipt: a SELL with no originating order, one line of
quantity 2000 (thousandths), and total 3998 kopecks. -/
def rSale : Receipt :=
  { id := "rcpt-1", type := some "SELL", order_id := none, goods := [giA1],
    total_sum := some 3998, created_at := none, shiftCashier := some "me" }

/-- The scenario line item exactly as written in the claim: no `good_id`
and no per-good price. -/
def giLiteral : GoodItem :=
  { good := some { code := some "A1", barcode := none, name := none, price := none },
    good_id := none, quantity := some 2000, total_sum := none }

/-- The claim's literal receipt
`{type:"SELL", order_id:null, goods:[{good:{code:"A1"}, quantity:2000}], total_sum:3998}`. -/
def rLiteral : Receipt :=
  { id := "rcpt-1", type := some "SELL", order_id := none, goods := [giLiteral],
    total_sum := some 3998, created_at := none, shiftCashier := some "me" }

/-- A categorised product unit with SKU `A1`, name `Widget`, price 5. -/
def u1 : KUnit :=
  { id := 1, name := some "Widget", sku := some "A1", barcode := none, price := some 5 }

/-- The corresponding syncable unit. -/
def su1 : SyncUnit := { unit := u1, productId := 1, isOffer := false, categoryId := some 10 }

/-- The category map holding the unit's (parentless) category. -/
def cats1 : List (Nat × Cat) := [(10, { id := 10, name := "Cat", parent_id := none })]

/-- An empty Checkbox catalog. -/
def posEmpty : PosState := { goods := [], groups := [], nextGoodId := 1, nextGroupId := 1 }

/-! ## Theorems -/
/-- C9: the payload built for good creation and update never depends on
the resolved group id: the fourth (`groupId`) argument the reconciler
passes is not a parameter of `toCheckboxGood` and is dropped, and the
resulting `CheckboxGoodPayload` (which has no group field) is exactly the
three-argument result. -/
theorem C9_toCheckboxGood_ignores_groupId :
    ∀ (taxEnv : String) (u : KUnit) (productId : Nat) (isOffer : Bool)
      (g1 g2 : Option String),
      toCheckboxGoodCall taxEnv u productId isOffer g1
        = toCheckboxGoodCall taxEnv u productId isOffer g2 ∧
      toCheckboxGoodCall taxEnv u productId isOffer g1
        = toCheckboxGood taxEnv u productId isOffer := by
  intro taxEnv u productId isOffer g1 g2
  exact ⟨rfl, rfl⟩
/-- C10: when the `x-request-signature` header is absent the webhook
handler never takes the 400 signature-failure branch, whatever secret is
configured; and with no configured secret `verifySignature` accepts every
body/signature pair. -/
theorem C10_signature_gate :
    ∀ (check : String → String → String → Bool) (secret : Option String)
      (rawBody : String),
      signatureRejected check secret rawBody none = false ∧
      ∀ (body sig : String), verifySignature check none body sig = true := by
  intro check secret rawBody
  constructor
  · simp [signatureRejected, jsTruthyS]
  · intro body sig
    simp [verifySignature, jsTruthyS]
/-- C4: `deriveCode` precedence — the trimmed SKU when it is non-empty
after trimming, else the trimmed barcode when that is non-empty after
trimming, else the 150-character-truncated slug of the display name,
where an empty/missing name is replaced by `product-<id>` before
slugging. -/
theorem C4_deriveCode_precedence :
    ∀ (u : KUnit),
      (∀ s, u.sku = some s → jsTrim s ≠ "" → deriveCode u = jsTrim s) ∧
      (jsTruthyTrim u.sku = false →
        ∀ b, u.barcode = some b → jsTrim b ≠ "" → deriveCode u = jsTrim b) ∧
      (jsTruthyTrim u.sku = false → jsTruthyTrim u.barcode = false →
        deriveCode u = String.mk ((slugify (slugSourceName u)).toList.take 150) ∧
        (u.name = none ∨ u.name = some "" →
          slugSourceName u = "product-" ++ toString u.id) ∧
        (∀ n, u.name = some n → n ≠ "" → slugSourceName u = n)) := by
  intro u
  refine ⟨?_, ?_, ?_⟩
  · intro s hs htrim
    have hne : s ≠ "" := by
      intro h0
      apply htrim
      rw [h0]
      decide
    unfold deriveCode
    rw [if_pos (by simp [jsTruthyTrim, hs, hne, htrim]), hs]
    rfl
  · intro hsku b hb htrim
    have hne : b ≠ "" := by
      intro h0
      apply htrim
      rw [h0]
      decide
    unfold deriveCode
    rw [if_neg (by simp [hsku]), if_pos (by simp [jsTruthyTrim, hb, hne, htrim]), hb]
    rfl
  · intro hsku hbar
    refine ⟨by unfold deriveCode; rw [if_neg (by simp [hsku]), if_neg (by simp [hbar])], ?_, ?_⟩
    · intro hname
      rcases hname with h | h <;> simp [slugSourceName, jsOrS, h]
    · intro n hn hne
      simp [slugSourceName, jsOrS, hn, hne]
/-- `toLowerJS` never returns an ASCII uppercase letter. -/
theorem isUpperA_toLowerJS (c : Char) : isUpperA (toLowerJS c) = false := by
  unfold toLowerJS
  by_cases h : (65 ≤ c.toNat && c.toNat ≤ 90) = true
  · rw [if_pos h]
    simp only [Bool.and_eq_true, decide_eq_true_eq] at h
    obtain ⟨h1, h2⟩ := h
    generalize c.toNat = n at h1 h2 ⊢
    interval_cases n <;> decide
  · rw [if_neg h]
    unfold isUpperA
    exact Bool.eq_false_iff.mpr h
/-- Characters of `collapseAux` output: either the inserted hyphen or a
non-separator character of the input. -/
theorem mem_collapseAux (c : Char) :
    ∀ (b : Bool) (l : List Char), c ∈ collapseAux b l →
      c = '-' ∨ (c ∈ l ∧ isSep c = false) := by
  intro b l
  induction l generalizing b with
  | nil => intro h; simp [collapseAux] at h
  | cons a as ih =>
    intro h
    by_cases ha : isSep a = true
    · rcases b with _ | _
      · simp only [collapseAux, ha, if_true] at h
        rcases List.mem_cons.mp h with h1 | h1
        · exact Or.inl h1
        · rcases ih true h1 with h2 | h2
          · exact Or.inl h2
          · exact Or.inr ⟨List.mem_cons_of_mem a h2.1, h2.2⟩
      · simp only [collapseAux, ha, if_true] at h
        rcases ih true h with h2 | h2
        · exact Or.inl h2
        · exact Or.inr ⟨List.mem_cons_of_mem a h2.1, h2.2⟩
    · simp only [collapseAux, ha, if_false, Bool.false_eq_true] at h
      rcases List.mem_cons.mp h with h1 | h1
      · subst h1
        exact Or.inr ⟨List.mem_cons_self c as, Bool.eq_false_iff.mpr ha⟩
      · rcases ih false h1 with h2 | h2
        · exact Or.inl h2
        · exact Or.inr ⟨List.mem_cons_of_mem a h2.1, h2.2⟩
/-- Membership in `dropWhile` output implies membership in the input. -/
theorem mem_dropWhile_mem (p : Char → Bool) :
    ∀ (l : List Char) (c : Char), c ∈ l.dropWhile p → c ∈ l := by
  intro l
  induction l with
  | nil => intro c h; simp [List.dropWhile] at h
  | cons a as ih =>
    intro c h
    by_cases ha : p a = true
    · simp only [List.dropWhile, ha, if_true] at h
      exact List.mem_cons_of_mem a (ih c h)
    · simp only [List.dropWhile, ha] at h
      simpa using h
/-- The head of a `dropWhile` result does not satisfy the predicate. -/
theorem head_dropWhile_false (p : Char → Bool) :
    ∀ (l : List Char) (c : Char), (l.dropWhile p).head? = some c → p c = false := by
  intro l
  induction l with
  | nil => intro c h; simp [List.dropWhile] at h
  | cons a as ih =>
    intro c h
    by_cases ha : p a = true
    · simp only [List.dropWhile, ha, if_true] at h
      exact ih c h
    · simp only [List.dropWhile, ha] at h
      simp only [Bool.false_eq_true, if_false, List.head?_cons, Option.some.injEq] at h
      subst h
      exact Bool.eq_false_iff.mpr ha
/-- `dropTrailHyphens l` is a prefix of `l`. -/
theorem dropTrail_append (l : List Char) :
    dropTrailHyphens l ++ (l.reverse.takeWhile (fun c => c == '-')).reverse = l := by
  unfold dropTrailHyphens
  rw [← List.reverse_append, List.takeWhile_append_dropWhile, List.reverse_reverse]
/-- Head of an append when the left part already yields it. -/
theorem head?_append_some (a b : List Char) (c : Char) (h : a.head? = some c) :
    (a ++ b).head? = some c := by
  cases a with
  | nil => simp at h
  | cons x xs => simpa using h
/-- Every character of a `slugify` result is a lowercase letter, a digit,
or a hyphen. -/
theorem slugify_chars (s : String) :
    ∀ c ∈ (slugify s).toList, isSlugChar c = true := by
  intro c hc
  have hc1 : c ∈ dropLeadHyphens (collapseAux false ((s.toList.map toLowerJS).filter keepChar)) := by
    unfold slugify at hc
    have hc2 : c ∈ dropTrailHyphens (dropLeadHyphens
        (collapseAux false ((s.toList.map toLowerJS).filter keepChar))) := hc
    unfold dropTrailHyphens at hc2
    exact (List.mem_reverse).mp
      (mem_dropWhile_mem _ _ c ((List.mem_reverse).mp hc2))
  have hc3 : c ∈ collapseAux false ((s.toList.map toLowerJS).filter keepChar) :=
    mem_dropWhile_mem _ _ c hc1
  rcases mem_collapseAux c false _ hc3 with h | ⟨hmem, hsep⟩
  · subst h; decide
  · have hf := List.mem_filter.mp hmem
    obtain ⟨d, _, hd⟩ := List.mem_map.mp hf.1
    have hkeep := hf.2
    unfold keepChar isWordCharJS at hkeep
    unfold isSep at hsep
    have hup : isUpperA c = false := by
      rw [← hd]; exact isUpperA_toLowerJS d
    unfold isSlugChar
    rcases Bool.or_eq_false_iff.mp hsep with ⟨hsp, hund⟩
    simp only [hup, hsp, hund, Bool.or_false, Bool.false_or] at hkeep
    simp [hkeep]
/-- The first character of a `slugify` result is never a hyphen. -/
theorem slugify_head (s : String) :
    ∀ c, (slugify s).toList.head? = some c → c ≠ '-' := by
  intro c hc
  have hstep : (slugify s).toList
      = dropTrailHyphens (dropLeadHyphens
          (collapseAux false ((s.toList.map toLowerJS).filter keepChar))) := rfl
  rw [hstep] at hc
  have happ := dropTrail_append (dropLeadHyphens
    (collapseAux false ((s.toList.map toLowerJS).filter keepChar)))
  have hh : (dropLeadHyphens
      (collapseAux false ((s.toList.map toLowerJS).filter keepChar))).head? = some c := by
    rw [← happ]
    exact head?_append_some _ _ c hc
  have := head_dropWhile_false (fun c => c == '-') _ c hh
  simpa using this
/-- The last character of a `slugify` result is never a hyphen. -/
theorem slugify_last (s : String) :
    ∀ c, (slugify s).toList.getLast? = some c → c ≠ '-' := by
  intro c hc
  have hstep : (slugify s).toList
      = ((dropLeadHyphens
          (collapseAux false ((s.toList.map toLowerJS).filter keepChar))).reverse.dropWhile
            (fun c => c == '-')).reverse := rfl
  rw [hstep, List.getLast?_reverse] at hc
  have := head_dropWhile_false (fun c => c == '-') _ c hc
  simpa using this
/-- C4 witness: the three precedence branches at concrete units. -/
theorem C4_deriveCode_precedence_witness :
    deriveCode unitSku = jsTrim " A1 " ∧
    deriveCode unitBarcode = jsTrim " BC " ∧
    deriveCode unitSlug = String.mk ((slugify (slugSourceName unitSlug)).toList.take 150) := by
  refine ⟨?_, ?_, ?_⟩
  · exact (C4_deriveCode_precedence unitSku).1 " A1 " rfl (by decide)
  · exact (C4_deriveCode_precedence unitBarcode).2.1 (by decide) " BC " rfl (by decide)
  · exact ((C4_deriveCode_precedence unitSlug).2.2 (by decide) (by decide)).1
/-- C5 counterexample: `unitLong` has empty SKU and barcode, yet the
derived code ends in a hyphen — slugify strips edge hyphens before the
`slice(0, 150)` truncation, so truncation can re-introduce a trailing
hyphen. -/
theorem C5_counterexample :
    jsTruthyTrim unitLong.sku = false ∧ jsTruthyTrim unitLong.barcode = false ∧
    ¬ slugClaim (deriveCode unitLong) := by
  refine ⟨rfl, rfl, ?_⟩
  intro h
  exact (h.2.2.2 '-' (by decide)) rfl
/-- Lists truncated by `take` keep their head. -/
theorem head?_take_some (n : Nat) (l : List Char) (c : Char)
    (hn : 0 < n) (h : (l.take n).head? = some c) : l.head? = some c := by
  cases n with
  | zero => exact absurd hn (by simp)
  | succ m =>
    cases l with
    | nil => simp at h
    | cons a as => simpa using h
/-- C5 amended: for units with empty SKU and barcode the derived code
contains only lowercase ASCII letters, digits and hyphens, has length at
most 150, and has no leading hyphen; it also has no trailing hyphen
whenever the full slug fits in 150 characters (truncation of a longer
slug can leave a trailing hyphen). -/
theorem C5_slug_properties (u : KUnit)
    (hsku : jsTruthyTrim u.sku = false) (hbar : jsTruthyTrim u.barcode = false) :
    (∀ c ∈ (deriveCode u).toList, isSlugChar c = true) ∧
    (deriveCode u).toList.length ≤ 150 ∧
    (∀ c, (deriveCode u).toList.head? = some c → c ≠ '-') ∧
    ((slugify (slugSourceName u)).toList.length ≤ 150 →
      ∀ c, (deriveCode u).toList.getLast? = some c → c ≠ '-') := by
  have hd : (deriveCode u).toList = (slugify (slugSourceName u)).toList.take 150 := by
    unfold deriveCode
    rw [if_neg (by simp [hsku]), if_neg (by simp [hbar])]
    rfl
  refine ⟨?_, ?_, ?_, ?_⟩
  · intro c hc
    rw [hd] at hc
    exact slugify_chars (slugSourceName u) c (List.mem_of_mem_take hc)
  · rw [hd, List.length_take]
    exact min_le_left 150 _
  · intro c hc
    rw [hd] at hc
    exact slugify_head (slugSourceName u) c (head?_take_some 150 _ c (by simp) hc)
  · intro hlen c hc
    rw [hd, List.take_of_length_le hlen] at hc
    exact slugify_last (slugSourceName u) c hc
/-- C3: the sale-event filter ignores (with a success response) any
receipt with a non-null `order_id`, any receipt whose line items all lack
a catalog good reference, any receipt whose known cashier differs from
the signed-in cashier, and any RETURN receipt; it accepts a SELL receipt
with at least one catalog-linked line item and no cashier mismatch. -/
theorem C3_sale_filter :
    ∀ (ourCashierId : Option String) (r : Receipt),
      (r.order_id.isSome = true → (classifyReceipt ourCashierId r).isIgnored = true) ∧
      (r.goods ≠ [] → (∀ g ∈ r.goods, g.good_id = none) →
        (classifyReceipt ourCashierId r).isIgnored = true) ∧
      (∀ oc rc, ourCashierId = some oc → oc ≠ "" → r.shiftCashier = some rc →
        rc ≠ "" → rc ≠ oc → (classifyReceipt ourCashierId r).isIgnored = true) ∧
      (r.type = some "RETURN" → (classifyReceipt ourCashierId r).isIgnored = true) ∧
      (∀ fr : FilterResult, fr.isIgnored = true →
        responseFor fr = { status := 200, ok := true, ignored := true }) ∧
      (r.type = some "SELL" → r.order_id = none →
        (∃ g ∈ r.goods, g.good_id ≠ none) →
        cashierMismatch ourCashierId r = false →
        classifyReceipt ourCashierId r = FilterResult.accepted) := by
  intro ourCashierId r
  refine ⟨?_, ?_, ?_, ?_, ?_, ?_⟩
  · intro h
    unfold classifyReceipt
    split_ifs <;> simp_all [FilterResult.isIgnored]
  · intro hne hall
    have hcond : allGoodsNull r = true := by
      unfold allGoodsNull
      simp only [Bool.and_eq_true, decide_eq_true_eq, List.all_eq_true]
      exact ⟨hne, fun g hg => by simp [hall g hg]⟩
    unfold classifyReceipt
    split_ifs <;> simp_all [FilterResult.isIgnored]
  · intro oc rc hoc hocne hrc hrcne hne
    have hcond : cashierMismatch ourCashierId r = true := by
      unfold cashierMismatch
      rw [hoc, hrc]
      simp [jsTruthyS, hocne, hrcne, hne]
    unfold classifyReceipt
    split_ifs <;> simp_all [FilterResult.isIgnored]
  · intro h
    have hcond : (receiptTypeUpper r != "" && receiptTypeUpper r != "SELL") = true := by
      unfold receiptTypeUpper
      rw [h]
      decide
    unfold classifyReceipt
    rw [if_pos hcond]
    rfl
  · intro fr h
    cases fr <;> simp_all [FilterResult.isIgnored, responseFor]
  · intro htype horder hex hcm
    obtain ⟨g, hg, hgid⟩ := hex
    have h1 : (receiptTypeUpper r != "" && receiptTypeUpper r != "SELL") = false := by
      unfold receiptTypeUpper
      rw [htype]
      decide
    have h2 : r.order_id.isSome = false := by rw [horder]; rfl
    have h3 : allGoodsNull r = false := by
      unfold allGoodsNull
      have : r.goods.all (fun g => g.good_id.isNone) = false :=
        List.all_eq_false.mpr ⟨g, hg, by simp [Option.isNone_iff_eq_none, hgid]⟩
      simp [this]
    unfold classifyReceipt
    rw [if_neg (by simp [h1]), if_neg (by simp [h2]), if_neg (by simp [h3]),
      if_neg (by simp [hcm])]
/-- C3 witness: the four ignored cases and the accepted case at concrete
receipts (our signed-in cashier is `"me"`). -/
theorem C3_sale_filter_witness :
    (classifyReceipt (some "me") rOrder).isIgnored = true ∧
    (classifyReceipt (some "me") rNullGoods).isIgnored = true ∧
    (classifyReceipt (some "me") rMismatch).isIgnored = true ∧
    (classifyReceipt (some "me") rReturn).isIgnored = true ∧
    responseFor (classifyReceipt (some "me") rReturn)
      = { status := 200, ok := true, ignored := true } ∧
    classifyReceipt (some "me") rAccepted = FilterResult.accepted := by
  refine ⟨?_, ?_, ?_, ?_, ?_, ?_⟩
  · exact (C3_sale_filter (some "me") rOrder).1 (by decide)
  · exact (C3_sale_filter (some "me") rNullGoods).2.1 (by decide) (by decide)
  · exact (C3_sale_filter (some "me") rMismatch).2.2.1 "me" "other" rfl
      (by decide) rfl (by decide) (by decide)
  · exact (C3_sale_filter (some "me") rReturn).2.2.2.1 rfl
  · exact (C3_sale_filter (some "me") rReturn).2.2.2.2.1 _
      ((C3_sale_filter (some "me") rReturn).2.2.2.1 rfl)
  · exact (C3_sale_filter (some "me") rAccepted).2.2.2.2.2 rfl rfl
      ⟨gLinked, by decide, by decide⟩ (by decide)
/-- C6: in the reconciler's create branch, a creation failure with HTTP
status 422 (the conflict/already-exists response) increments the skipped
count and leaves the error list untouched, while any other creation
failure appends an error entry carrying the code and the response data
and leaves the skipped and created counts untouched. -/
theorem C6_create_conflict_handling :
    ∀ (summary : RunSummary) (code unitName : String) (e : HttpErr),
      (e.status = some 422 →
        applyCreateOutcome summary code unitName (Except.error e)
          = { summary with skipped := summary.skipped + 1 }) ∧
      (e.status ≠ some 422 →
        (applyCreateOutcome summary code unitName (Except.error e)).errors
          = summary.errors ++
            [{ id := none, code := some code, reason := createFailMsg code e,
               detail := e.data }] ∧
        (applyCreateOutcome summary code unitName (Except.error e)).skipped
          = summary.skipped ∧
        (applyCreateOutcome summary code unitName (Except.error e)).created
          = summary.created) := by
  intro summary code unitName e
  constructor
  · intro h
    simp [applyCreateOutcome, h]
  · intro h
    simp [applyCreateOutcome, h]
/-- C6 witness: the conflict and non-conflict branches at concrete
failures. -/
theorem C6_create_conflict_handling_witness :
    applyCreateOutcome emptySummary "A1" "Widget" (Except.error err422)
      = { emptySummary with skipped := emptySummary.skipped + 1 } ∧
    ((applyCreateOutcome emptySummary "A1" "Widget" (Except.error err500)).errors
        = emptySummary.errors ++
          [{ id := none, code := some "A1", reason := createFailMsg "A1" err500,
             detail := err500.data }] ∧
      (applyCreateOutcome emptySummary "A1" "Widget" (Except.error err500)).skipped
        = emptySummary.skipped ∧
      (applyCreateOutcome emptySummary "A1" "Widget" (Except.error err500)).created
        = emptySummary.created) :=
  ⟨(C6_create_conflict_handling emptySummary "A1" "Widget" err422).1 rfl,
   (C6_create_conflict_handling emptySummary "A1" "Widget" err500).2 (by decide)⟩
/-- Fresh group ids are non-empty, hence truthy for the cache check. -/
theorem gId_ne_empty (n : Nat) : ("g" ++ toString n) ≠ "" := by
  intro h
  have hd : ("g" ++ toString n).length = 0 := by rw [h]; rfl
  rw [String.length_append] at hd
  have hg : "g".length = 1 := rfl
  omega
/-- Looking up the key just set in a JS-object-style map returns the set
value. -/
theorem lookup_mapSet_self {α : Type} (m : List (String × α)) (k : String) (v : α) :
    List.lookup k (mapSet m k v) = some v := by
  induction m with
  | nil => simp [mapSet, List.lookup]
  | cons p rest ih =>
    obtain ⟨k0, v0⟩ := p
    unfold mapSet
    by_cases h : (k0 == k) = true
    · rw [if_pos h]
      simp [List.lookup]
    · rw [if_neg h]
      have h' : k0 ≠ k := by simpa using h
      have hne : (k == k0) = false := by
        rw [beq_eq_false_iff_ne]
        exact fun hk => h' hk.symm
      simp [List.lookup, hne, ih]
/-- `cachePopulated` always yields a materialised cache. -/
theorem cachePopulated_isSome (s : CbGroupsState) :
    (cachePopulated s).cache.isSome = true := by
  unfold cachePopulated
  split <;> simp_all
/-- `cachePopulated` is the identity once the cache is materialised. -/
theorem cachePopulated_of_some (s : CbGroupsState) (h : s.cache.isSome = true) :
    cachePopulated s = s := by
  unfold cachePopulated
  split <;> simp_all
/-- C7: within one run, resolving the same (group name, parent id) pair a
second time returns the id produced by the first resolution and issues no
further create call — the cache is updated with the newly created group
before `getOrCreateGroup` returns. -/
theorem C7_getOrCreateGroup_idempotent :
    ∀ (name : String) (parentId : Option String) (s0 : CbGroupsState),
      (getOrCreateGroup name parentId (getOrCreateGroup name parentId s0).2).1
        = (getOrCreateGroup name parentId s0).1 ∧
      (getOrCreateGroup name parentId (getOrCreateGroup name parentId s0).2).2.createCount
        = (getOrCreateGroup name parentId s0).2.createCount := by
  intro name parentId s0
  have hpop := cachePopulated_isSome s0
  have hgid : (("g" ++ toString (cachePopulated s0).nextId != "") = true) :=
    bne_iff_ne.mpr (gId_ne_empty _)
  cases hl : List.lookup (name ++ "::" ++ parentId.getD "")
      ((cachePopulated s0).cache.getD []) with
  | some v =>
    by_cases hv : (v != "") = true
    · simp only [getOrCreateGroup, hl, hv, if_true]
      rw [cachePopulated_of_some _ hpop]
      simp only [hl, hv, if_true]
      exact ⟨trivial, trivial⟩
    · have hv' : (v != "") = false := by simpa using hv
      simp only [getOrCreateGroup, hl, hv', Bool.false_eq_true, if_false, cbCreateGroup]
      rw [cachePopulated_of_some _ (by simp)]
      simp only [Option.getD_some]
      rw [lookup_mapSet_self]
      simp only [hgid, if_true]
      exact ⟨trivial, trivial⟩
  | none =>
    simp only [getOrCreateGroup, hl, cbCreateGroup]
    rw [cachePopulated_of_some _ (by simp)]
    simp only [Option.getD_some]
    rw [lookup_mapSet_self]
    simp only [hgid, if_true]
    exact ⟨trivial, trivial⟩
/-- The deferred status/client update preserves an order's idempotency key. -/
theorem update_preserves_uuid (oid sid cid : Nat) (o : CrmOrder) :
    (if o.id == oid then { o with status_id := some sid, client_id := some cid }
     else o).source_uuid = o.source_uuid := by
  split <;> rfl
/-- Filtering by an idempotency key absent from `l` and present on `n`
finds exactly one order. -/
theorem count_filter_uuid (u : String) (l : List CrmOrder) (n : CrmOrder)
    (hl : ∀ o ∈ l, o.source_uuid ≠ u) (hn : n.source_uuid = u) :
    ((l ++ [n]).filter (fun o => o.source_uuid == u)).length = 1 := by
  rw [List.filter_append]
  have h0 : l.filter (fun o => o.source_uuid == u) = [] := by
    rw [List.filter_eq_nil_iff]
    intro o ho
    simp [hl o ho]
  rw [h0]
  simp [hn]
/-- A stored order with the receipt's key is found by the duplicate scan. -/
theorem any_uuid_append (u : String) (l : List CrmOrder) (n : CrmOrder)
    (hn : n.source_uuid = u) :
    ((l ++ [n]).any fun o => o.source_uuid == u) = true := by
  rw [List.any_append]
  simp [hn]
/-- `createOrder` on a state without the payload's key stores exactly one
new order carrying that key. -/
theorem crmCreateOrder_fresh (s0 : CrmState) (payload : OrderPayload)
    (h : (s0.orders.any fun o => o.source_uuid == payload.source_uuid) = false) :
    crmCreateOrder s0 payload = Except.ok (s0.nextId,
      { orders := s0.orders ++
          [⟨s0.nextId, payload.source_uuid, payload.products, payload.payments, none, none⟩]
        nextId := s0.nextId + 1 }) := by
  unfold crmCreateOrder
  rw [h]
  rfl
/-- A first `processReceipt` call on a CRM without the receipt's key
succeeds with a created order, and the resulting store holds exactly one
order with that key. -/
theorem processReceipt_fresh (cfg : Config) (crm : CrmReads) (receipt : Receipt)
    (s0 : CrmState)
    (h1 : (buildProducts crm receipt.goods).isEmpty = false)
    (h2 : ∀ o ∈ s0.orders, o.source_uuid ≠ receipt.id) :
    (processReceipt cfg crm receipt s0).1 = ProcResult.created s0.nextId ∧
    ((processReceipt cfg crm receipt s0).2.orders.any
      (fun o => o.source_uuid == receipt.id)) = true ∧
    ((processReceipt cfg crm receipt s0).2.orders.filter
      (fun o => o.source_uuid == receipt.id)).length = 1 := by
  have hany0 : (s0.orders.any fun o =>
      o.source_uuid == (orderPayload cfg receipt (buildProducts crm receipt.goods)).source_uuid)
      = false := by
    rw [List.any_eq_false]
    intro o ho
    simp [orderPayload, h2 o ho]
  have hco := crmCreateOrder_fresh s0
    (orderPayload cfg receipt (buildProducts crm receipt.goods)) hany0
  simp only [processReceipt, h1, Bool.false_eq_true, if_false, hco]
  by_cases hnz : (s0.nextId != 0) = true
  · simp only [hnz, if_true, List.map_append, List.map_cons, List.map_nil]
    refine ⟨by trivial, ?_, ?_⟩
    · apply any_uuid_append
      rw [if_pos (show (s0.nextId == s0.nextId) = true by simp)]
      rfl
    · apply count_filter_uuid
      · intro o ho
        obtain ⟨o0, ho0, rfl⟩ := List.mem_map.mp ho
        intro hcontra
        exact h2 o0 ho0 (by
          rw [← update_preserves_uuid s0.nextId cfg.statusId cfg.buyerId o0]
          exact hcontra)
      · rw [if_pos (show (s0.nextId == s0.nextId) = true by simp)]
        rfl
  · have hnz' : (s0.nextId != 0) = false := by simpa using hnz
    simp only [hnz', Bool.false_eq_true, if_false]
    refine ⟨by trivial, ?_, ?_⟩
    · exact any_uuid_append _ _ _ rfl
    · exact count_filter_uuid _ _ _ h2 rfl
/-- A `processReceipt` call against a CRM already holding the receipt's
key hits the duplicate-`source_uuid` 422 and returns success with the
store unchanged. -/
theorem processReceipt_duplicate (cfg : Config) (crm : CrmReads) (receipt : Receipt)
    (s : CrmState)
    (h1 : (buildProducts crm receipt.goods).isEmpty = false)
    (h2 : (s.orders.any fun o => o.source_uuid == receipt.id) = true) :
    processReceipt cfg crm receipt s = (ProcResult.duplicateIgnored, s) := by
  have hco : crmCreateOrder s (orderPayload cfg receipt (buildProducts crm receipt.goods))
      = Except.error ⟨some 422, some ⟨some "Duplicate source_uuid", none⟩,
          "Request failed with status code 422"⟩ := by
    unfold crmCreateOrder
    have hsrc : (orderPayload cfg receipt (buildProducts crm receipt.goods)).source_uuid
        = receipt.id := rfl
    rw [hsrc, h2]
    rfl
  simp only [processReceipt, h1, Bool.false_eq_true, if_false, hco]
  split
  · rfl
  · next hfalse => exact absurd (by decide) hfalse
/-- C2: submitting the same receipt twice yields exactly one CRM order:
the payload's idempotency key is the receipt id, both submissions return
success (the CRM's duplicate-key 422 on the second submission is
swallowed by `processReceipt`), and exactly one stored order carries the
receipt's key. -/
theorem C2_duplicate_receipt (cfg : Config) (crm : CrmReads) (receipt : Receipt)
    (s0 : CrmState)
    (h1 : buildProducts crm receipt.goods ≠ [])
    (h2 : ∀ o ∈ s0.orders, o.source_uuid ≠ receipt.id) :
    (orderPayload cfg receipt (buildProducts crm receipt.goods)).source_uuid
      = receipt.id ∧
    ProcResult.isSuccess (processReceipt cfg crm receipt s0).1 = true ∧
    ProcResult.isSuccess
      (processReceipt cfg crm receipt (processReceipt cfg crm receipt s0).2).1 = true ∧
    ((processReceipt cfg crm receipt
        (processReceipt cfg crm receipt s0).2).2.orders.filter
      (fun o => o.source_uuid == receipt.id)).length = 1 := by
  have hpe : (buildProducts crm receipt.goods).isEmpty = false := by
    simp [List.isEmpty_iff, h1]
  obtain ⟨hr1, hany1, hcount1⟩ := processReceipt_fresh cfg crm receipt s0 hpe h2
  have hdup := processReceipt_duplicate cfg crm receipt
    (processReceipt cfg crm receipt s0).2 hpe hany1
  refine ⟨rfl, ?_, ?_, ?_⟩
  · rw [hr1]; rfl
  · rw [hdup]; rfl
  · rw [hdup]
    exact hcount1
/-- C2 witness: the duplicate-submission property at the concrete
scenario receipt starting from an empty CRM. -/
theorem C2_duplicate_receipt_witness :
    (orderPayload cfg0 rSale (buildProducts crm0 rSale.goods)).source_uuid = rSale.id ∧
    ProcResult.isSuccess (processReceipt cfg0 crm0 rSale crmEmpty).1 = true ∧
    ProcResult.isSuccess
      (processReceipt cfg0 crm0 rSale (processReceipt cfg0 crm0 rSale crmEmpty).2).1 = true ∧
    ((processReceipt cfg0 crm0 rSale
        (processReceipt cfg0 crm0 rSale crmEmpty).2).2.orders.filter
      (fun o => o.source_uuid == rSale.id)).length = 1 :=
  C2_duplicate_receipt cfg0 crm0 rSale crmEmpty (by decide) (by simp [crmEmpty])
/-- C8 counterexample: on the claim's literal receipt the filter ignores
the event (its only line has a null `good_id`), and even fed directly to
`processReceipt` the product line's price is 0, not 19.99 — the line
price is `(good.price || goodItem.total_sum || 0) / 100` and the literal
payload carries neither. -/
theorem C8_counterexample :
    classifyReceipt (some "me") rLiteral = FilterResult.ignoredNullGoods ∧
    ((processReceipt cfg0 crm0 rLiteral crmEmpty).2.orders.map
      (fun o => o.products.map (fun p => (p.quantity, p.price))))
      = [[((2 : ℚ), (0 : ℚ))]] ∧
    ((0 : ℚ) ≠ 1999 / 100) := by
  refine ⟨by decide, by decide, by decide⟩
/-- C8 amended: with the line carrying its catalog good reference and the
good's price of 1999 kopecks, the receipt is accepted and ingestion
produces exactly one order whose single product line has quantity 2 and
price 19.99. -/
theorem C8_scenario :
    classifyReceipt (some "me") rSale = FilterResult.accepted ∧
    ((processReceipt cfg0 crm0 rSale crmEmpty).2.orders.filter
      (fun o => o.source_uuid == rSale.id)).length = 1 ∧
    ((processReceipt cfg0 crm0 rSale crmEmpty).2.orders.map
      (fun o => o.products.map (fun p => (p.quantity, p.price))))
      = [[((2 : ℚ), (1999 / 100 : ℚ))]] := by
  refine ⟨by decide, by decide, by decide⟩
/-- C1: the reconciler is not idempotent.  Starting from an empty catalog,
the first run creates the good (and its group); the second run, with no
upstream change, performs an update (not a skip): the created good has no
group (`toCheckboxGood` drops the `groupId` argument), so the
`group assignment changed` test fires on every subsequent run — created
is 0 but updated is 1 and skipped is 0, where the claim requires updated
0 and skipped 1. -/
theorem C1_second_run_not_idempotent :
    (syncRun "" cats1 [su1] posEmpty).1.created = 1 ∧
    (syncRun "" cats1 [su1] posEmpty).1.updated = 0 ∧
    (syncRun "" cats1 [su1] (syncRun "" cats1 [su1] posEmpty).2).1.created = 0 ∧
    (syncRun "" cats1 [su1] (syncRun "" cats1 [su1] posEmpty).2).1.updated = 1 ∧
    (syncRun "" cats1 [su1] (syncRun "" cats1 [su1] posEmpty).2).1.skipped = 0 := by
  refine ⟨by decide, by decide, by decide, by decide, by decide⟩
/-- C5 witness: the amended properties at a concrete unit with empty SKU
and barcode. -/
theorem C5_slug_properties_witness :
    jsTruthyTrim unitSlug.sku = false ∧ jsTruthyTrim unitSlug.barcode = false ∧
    ((∀ c ∈ (deriveCode unitSlug).toList, isSlugChar c = true) ∧
     (deriveCode unitSlug).toList.length ≤ 150 ∧
     (∀ c, (deriveCode unitSlug).toList.head? = some c → c ≠ '-') ∧
     ((slugify (slugSourceName unitSlug)).toList.length ≤ 150 →
       ∀ c, (deriveCode unitSlug).toList.getLast? = some c → c ≠ '-')) :=
  ⟨by decide, by decide, C5_slug_properties unitSlug (by decide) (by decide)⟩

end Bridge